import Mathlib

set_option maxRecDepth 8192

/-!
Shallow embedding of the PodSec backend (`src/backend/main.py`).

External effects — the Podman HTTP API, the `podman` subprocess, the
password-hashing primitives of `auth.py`, the token signer — are modelled as
explicit outcome/oracle parameters, so every request handler is a pure
function of the request and of those outcomes.  Strings are Lean `String`s;
character-level operations are carried out on `String.data` so that all
definitions evaluate by `decide`.
-/

namespace PodSec

/-- ASCII whitespace characters removed by Python `str.strip()`. -/
def isPySpace (c : Char) : Bool :=
  c == ' ' || c == '\t' || c == '\n' || c == '\r' || c == '\x0b' || c == '\x0c'

/-- Removal of leading whitespace from a character list. -/
def lstripL (l : List Char) : List Char := l.dropWhile isPySpace

/-- Removal of trailing whitespace from a character list. -/
def rstripL (l : List Char) : List Char := (l.reverse.dropWhile isPySpace).reverse

/-- Python `s.strip()` over the ASCII whitespace set. -/
def pythonStrip (s : String) : String := String.mk (rstripL (lstripL s.data))

/-- Environment configuration read once at module import
(`main.py` lines 31-41): `PODMAN_HOST` and `PODMAN_CONNECTION`. -/
structure Config where
  podmanHost : String
  podmanConnection : String
deriving DecidableEq, Repr

/-- Line 35: `USE_HTTP_API = PODMAN_HOST and PODMAN_HOST.startswith("tcp://")`.
Truthiness of a Python string is nonemptiness. -/
def useHttpApi (cfg : Config) : Bool :=
  (cfg.podmanHost != "") && "tcp://".data.isPrefixOf cfg.podmanHost.data

/-- FastAPI `HTTPException`: status code and human-readable detail. -/
structure HTTPError where
  statusCode : Nat
  detail : String
deriving DecidableEq, Repr

instance {ε α : Type} [DecidableEq ε] [DecidableEq α] : DecidableEq (Except ε α) := fun x y =>
  match x, y with
  | Except.ok a, Except.ok b => decidable_of_iff (a = b) (by simp)
  | Except.ok _, Except.error _ => isFalse (by simp)
  | Except.error _, Except.ok _ => isFalse (by simp)
  | Except.error a, Except.error b => decidable_of_iff (a = b) (by simp)

/-- Python `str(HTTPException)` as produced by Starlette, used when the
exception of a bulk entry is stringified. -/
def strOfHTTPError (e : HTTPError) : String :=
  toString e.statusCode ++ ": " ++ e.detail

/-- Outcome of one call to the Podman HTTP API inside `http_api_request`
(lines 87-117), before the error handling of that helper: a 2xx response
carries the parsed JSON body, a non-2xx response carries the upstream status
and body text, and any other failure (connect error, timeout) carries the
exception text. -/
inductive HttpOutcome (α : Type) where
  | ok (body : α)
  | statusErr (code : Nat) (text : String)
  | connErr (msg : String)
deriving DecidableEq, Repr

/-- Error handling of `http_api_request` (lines 100-117): non-2xx becomes an
`HTTPException` with the upstream status, anything else becomes a 500. -/
def httpApiRequest {α : Type} (o : HttpOutcome α) : Except HTTPError α :=
  match o with
  | .ok b => .ok b
  | .statusErr c t => .error (HTTPError.mk c ("Podman API error: " ++ t))
  | .connErr m => .error (HTTPError.mk 500 ("Failed to connect to Podman API: " ++ m))

/-- Outcome of `subprocess.run(..., check=True)` plus JSON parsing inside
`run_podman_command` (lines 120-158). -/
inductive CliOutcome (α : Type) where
  | ok (parsed : α)
  | calledProcessError (stderr : String)
  | jsonDecodeError
  | fileNotFound
deriving DecidableEq, Repr

/-- Error handling of `run_podman_command` (lines 142-158). -/
def runPodmanCommand {α : Type} (o : CliOutcome α) : Except HTTPError α :=
  match o with
  | .ok parsed => .ok parsed
  | .calledProcessError st => .error (HTTPError.mk 500 ("Podman error: " ++ st))
  | .jsonDecodeError => .error (HTTPError.mk 500 "Failed to parse Podman output")
  | .fileNotFound => .error (HTTPError.mk 500 "Podman is not installed or not in PATH")

/-- Request body of POST /api/secrets (`SecretCreate` pydantic model). -/
structure SecretCreate where
  name : String
  data : String
  driver : String
deriving DecidableEq, Repr

/-- Canonical flat list row (`SecretResponse` pydantic model, lines 70-75). -/
structure SecretResponse where
  ID : String
  Name : String
  Driver : String
  CreatedAt : String
  UpdatedAt : String
deriving DecidableEq, Repr

/-- Nested `Spec.Driver` object of the raw remote-API schema; the field may
be absent (`dict.get` with a default in the source). -/
structure RemoteDriver where
  Name : Option String
deriving DecidableEq, Repr

/-- Nested `Spec` object of the raw remote-API schema. -/
structure RemoteSpec where
  Name : Option String
  Driver : Option RemoteDriver
deriving DecidableEq, Repr

/-- Raw remote-API record for one secret: top-level fields plus the nested
`Spec` object; every field may be absent. -/
structure RemoteSecret where
  ID : Option String
  Spec : Option RemoteSpec
  CreatedAt : Option String
  UpdatedAt : Option String
deriving DecidableEq, Repr

/-- Python `{}` as a `Spec` value (`result.get("Spec", {})`). -/
def emptyRemoteSpec : RemoteSpec := RemoteSpec.mk none none

/-- Python `{}` as a `Spec.Driver` value. -/
def emptyRemoteDriver : RemoteDriver := RemoteDriver.mk none

/-- Flattening of one raw remote record in `list_secrets` (lines 226-233):
`ID`, `Spec.Name`, `Spec.Driver.Name` (default "file"), timestamps. -/
def transformListEntry (s : RemoteSecret) : SecretResponse :=
  SecretResponse.mk (s.ID.getD "")
    ((s.Spec.getD emptyRemoteSpec).Name.getD "")
    (((s.Spec.getD emptyRemoteSpec).Driver.getD emptyRemoteDriver).Name.getD "file")
    (s.CreatedAt.getD "")
    (s.UpdatedAt.getD "")

/-- Canonical detail object (`SecretDetail` pydantic model, lines 78-84):
the flat fields plus the nested `Spec` object. -/
structure SecretDetail where
  ID : String
  Name : String
  Driver : String
  CreatedAt : String
  UpdatedAt : String
  Spec : RemoteSpec
deriving DecidableEq, Repr

/-- GET /api/secrets (lines 216-242).  The CLI branch returns the parsed
`podman secret ls --format json` output unchanged; the declared
`response_model` constrains that raw value to the flat `SecretResponse`
shape, so the parsed CLI value is modelled at that type. -/
def listSecrets (cfg : Config) (httpB : HttpOutcome (List RemoteSecret))
    (cliB : CliOutcome (List SecretResponse)) :
    Except HTTPError (List SecretResponse) :=
  if useHttpApi cfg then
    match httpApiRequest httpB with
    | .error e => .error e
    | .ok secrets =>
      if secrets.isEmpty then .ok [] else .ok (secrets.map transformListEntry)
  else
    match runPodmanCommand cliB with
    | .error e => .error e
    | .ok secrets => if secrets.isEmpty then .ok [] else .ok secrets

/-- Flattening of the raw remote record in `inspect_secret` (lines 389-396). -/
def transformInspect (r : RemoteSecret) : SecretDetail :=
  SecretDetail.mk (r.ID.getD "")
    ((r.Spec.getD emptyRemoteSpec).Name.getD "")
    (((r.Spec.getD emptyRemoteSpec).Driver.getD emptyRemoteDriver).Name.getD "file")
    (r.CreatedAt.getD "")
    (r.UpdatedAt.getD "")
    (r.Spec.getD emptyRemoteSpec)

/-- GET /api/secrets/{secret_id} (lines 377-412).  An empty remote body
(`if not result`) is modelled as `.ok none`; the CLI branch returns
`result[0]` unchanged (constrained by `response_model` to `SecretDetail`). -/
def inspectSecret (cfg : Config) (secretId : String)
    (httpB : HttpOutcome (Option RemoteSecret))
    (cliB : CliOutcome (List SecretDetail)) : Except HTTPError SecretDetail :=
  if useHttpApi cfg then
    match httpApiRequest httpB with
    | .error e => .error e
    | .ok none => .error (HTTPError.mk 404 ("Secret \x27" ++ secretId ++ "\x27 not found"))
    | .ok (some r) => .ok (transformInspect r)
  else
    match runPodmanCommand cliB with
    | .error e => .error e
    | .ok [] => .error (HTTPError.mk 404 ("Secret \x27" ++ secretId ++ "\x27 not found"))
    | .ok (r :: _) => .ok r

/-- Length part of the name validation of `create_secret` (line 253):
`not secret_name or len(secret_name) < 1 or len(secret_name) > 253`. -/
def nameLenBad (n : String) : Bool :=
  n.data.length == 0 || decide (253 < n.data.length)

/-- Forbidden-character part of the name validation (line 259):
`any(char in secret_name for char in ['=', '/', ',', '\0'])`. -/
def nameCharBad (n : String) : Bool :=
  ['=', '/', ',', '\x00'].any (fun c => n.data.contains c)

/-- A stripped name that fails either validation check. -/
def badName (n : String) : Bool := nameLenBad n || nameCharBad n

/-- Outcome of the `subprocess.Popen` call of the CLI create path: the
completed process (return code, stdout, stderr), or a raised exception
(for example a missing executable). -/
inductive PopenOutcome where
  | run (returncode : Int) (stdout : String) (stderr : String)
  | exn (msg : String)
deriving DecidableEq, Repr

/-- Success body of POST /api/secrets (lines 286 and 317). -/
structure CreateSuccess where
  id : String
  name : String
  message : String
deriving DecidableEq, Repr

/-- Backend dispatch of `create_secret` after validation (lines 265-325):
the HTTP branch extracts `result.get("ID", "")`; the CLI branch maps a
nonzero exit status to 400 carrying the captured stderr and strips stdout
for the id; any other exception becomes a 500. -/
def dispatchCreate (cfg : Config) (secretName : String)
    (hOut : HttpOutcome (Option String)) (cOut : PopenOutcome) :
    Except HTTPError CreateSuccess :=
  if useHttpApi cfg then
    match httpApiRequest hOut with
    | .error e => .error e
    | .ok idField =>
      .ok (CreateSuccess.mk (idField.getD "") secretName "Secret created successfully")
  else
    match cOut with
    | .run rc out errS =>
      if rc != 0 then .error (HTTPError.mk 400 ("Failed to create secret: " ++ errS))
      else .ok (CreateSuccess.mk (pythonStrip out) secretName "Secret created successfully")
    | .exn m => .error (HTTPError.mk 500 m)

/-- POST /api/secrets (lines 245-325).  The backend outcome parameters are
functions of the name actually dispatched to the backend. -/
def createSecret (cfg : Config) (secret : SecretCreate)
    (httpB : String → HttpOutcome (Option String))
    (cliB : String → PopenOutcome) : Except HTTPError CreateSuccess :=
  let secretName := pythonStrip secret.name
  if nameLenBad secretName then
    .error (HTTPError.mk 400 "Secret name must be between 1 and 253 characters")
  else if nameCharBad secretName then
    .error (HTTPError.mk 400
      "Secret name cannot contain \x27=\x27, \x27/\x27, \x27,\x27 or NULL characters")
  else
    dispatchCreate cfg secretName (httpB secretName) (cliB secretName)

/-- Outcome of one entry inside the bulk result. -/
inductive BulkItem where
  | success (id : String) (name : String)
  | failed (name : String) (error : String)
deriving DecidableEq, Repr

/-- Aggregated bulk result: `success` holds (id, name) pairs, `failed`
holds (name, error) pairs, each in input order. -/
structure BulkResults where
  success : List (String × String)
  failed : List (String × String)
deriving DecidableEq, Repr

/-- Processing of one bulk entry (lines 333-371).  Validation failures and
caught exceptions record the original `secret.name`; a CLI nonzero exit
records the stripped name (line 365); a caught `HTTPException` from the
HTTP branch is stringified by the generic `except Exception` handler. -/
def bulkProcessEntry (cfg : Config) (secret : SecretCreate)
    (hOut : HttpOutcome (Option String)) (cOut : PopenOutcome) : BulkItem :=
  let secretName := pythonStrip secret.name
  if nameLenBad secretName then .failed secret.name "Name must be 1-253 characters"
  else if nameCharBad secretName then .failed secret.name "Invalid characters in name"
  else if useHttpApi cfg then
    match httpApiRequest hOut with
    | .ok idField => .success (idField.getD "") secretName
    | .error e => .failed secret.name (strOfHTTPError e)
  else
    match cOut with
    | .run rc out errS =>
      if rc != 0 then .failed secretName errS
      else .success (pythonStrip out) secretName
    | .exn m => .failed secret.name m

/-- POST /api/secrets/bulk (lines 328-374): sequential left-to-right
processing, one outcome per entry, appended in order to the matching list.
The backend oracles are indexed by entry position and by the dispatched
name. -/
def createBulkSecrets (cfg : Config) (secrets : List SecretCreate)
    (hB : Nat → String → HttpOutcome (Option String))
    (cB : Nat → String → PopenOutcome) : BulkResults :=
  match secrets with
  | [] => BulkResults.mk [] []
  | s :: rest =>
    let item := bulkProcessEntry cfg s (hB 0 (pythonStrip s.name)) (cB 0 (pythonStrip s.name))
    let restRes := createBulkSecrets cfg rest (fun i => hB (i + 1)) (fun i => cB (i + 1))
    match item with
    | .success id n => BulkResults.mk ((id, n) :: restRes.success) restRes.failed
    | .failed n e => BulkResults.mk restRes.success ((n, e) :: restRes.failed)

/-- The backend call selected by the configuration succeeded for one bulk
entry (HTTP 2xx, or CLI exit status 0). -/
def entrySucceeds (cfg : Config) (hOut : HttpOutcome (Option String))
    (cOut : PopenOutcome) : Bool :=
  if useHttpApi cfg then
    match hOut with
    | .ok _ => true
    | _ => false
  else
    match cOut with
    | .run rc _ _ => rc == 0
    | _ => false

/-- Outcome of `subprocess.run(..., check=True)` in `delete_secret`. -/
inductive CliRunOutcome where
  | ok (stdout : String) (stderr : String)
  | calledProcessError (stderr : String)
  | exn (msg : String)
deriving DecidableEq, Repr

/-- DELETE /api/secrets/{secret_id} (lines 415-455): a CLI
`CalledProcessError` becomes a 400 carrying the error stream, a remote
`HTTPException` is re-raised unchanged, any other exception becomes a 500. -/
def deleteSecret (cfg : Config) (secretId : String)
    (httpB : HttpOutcome Unit) (cliB : CliRunOutcome) : Except HTTPError String :=
  if useHttpApi cfg then
    match httpApiRequest httpB with
    | .error e => .error e
    | .ok _ => .ok ("Secret \x27" ++ secretId ++ "\x27 deleted successfully")
  else
    match cliB with
    | .ok _ _ => .ok ("Secret \x27" ++ secretId ++ "\x27 deleted successfully")
    | .calledProcessError st =>
      .error (HTTPError.mk 400 ("Failed to delete secret: " ++ st))
    | .exn m => .error (HTTPError.mk 500 m)

/-- Parsed `Client` object of `podman version --format json`. -/
structure ClientInfo where
  Version : Option String
deriving DecidableEq, Repr

/-- Parsed output of `podman version --format json`. -/
structure CliVersionInfo where
  Client : Option ClientInfo
deriving DecidableEq, Repr

/-- Python `{}` as a `Client` value. -/
def emptyClientInfo : ClientInfo := ClientInfo.mk none

/-- Parsed body of the remote `/version` endpoint. -/
structure HttpVersionInfo where
  Version : Option String
deriving DecidableEq, Repr

/-- Outcome of the CLI health probe: parsed version JSON, or any raised
exception (nonzero exit, parse failure, missing executable). -/
inductive HealthCliOutcome where
  | ok (vi : CliVersionInfo)
  | exn (msg : String)
deriving DecidableEq, Repr

/-- JSON scalar inside the health payload. -/
inductive JVal where
  | b (v : Bool)
  | s (v : String)
deriving DecidableEq, Repr

/-- Python `X or "default"` on a string. -/
def orDefault (s : String) : String := if s == "" then "default" else s

/-- GET /api/health (lines 458-502), rendered as the ordered field list of
the returned JSON object.  The whole body sits inside `try/except
Exception`, so every outcome — backend failure included — is mapped to a
structured result and the handler itself never raises. -/
def healthCheck (cfg : Config) (httpB : HttpOutcome HttpVersionInfo)
    (cliB : HealthCliOutcome) : List (String × JVal) :=
  if useHttpApi cfg then
    match httpApiRequest httpB with
    | .ok vi =>
      [("podman_available", JVal.b true),
       ("version", JVal.s (vi.Version.getD "unknown")),
       ("host", JVal.s (orDefault cfg.podmanHost)),
       ("connection", JVal.s (orDefault cfg.podmanConnection)),
       ("mode", JVal.s "HTTP API")]
    | .error e =>
      [("podman_available", JVal.b false), ("error", JVal.s (strOfHTTPError e))]
  else
    match cliB with
    | .ok vi =>
      [("podman_available", JVal.b true),
       ("version", JVal.s ((vi.Client.getD emptyClientInfo).Version.getD "unknown")),
       ("host", JVal.s (orDefault cfg.podmanHost)),
       ("connection", JVal.s (orDefault cfg.podmanConnection)),
       ("mode", JVal.s "CLI")]
    | .exn m =>
      [("podman_available", JVal.b false), ("error", JVal.s m)]

/-- The health probe of the backend selected by the configuration succeeded
(HTTP 2xx on the remote `/version` endpoint, or a parsed
`podman version --format json` locally). -/
def healthSucceeds (cfg : Config) (httpB : HttpOutcome HttpVersionInfo)
    (cliB : HealthCliOutcome) : Bool :=
  if useHttpApi cfg then
    match httpB with
    | .ok _ => true
    | _ => false
  else
    match cliB with
    | .ok _ => true
    | _ => false

/-- One row of the credential store (`database.py` lines 14-21, restricted
to the fields the authentication path reads). -/
structure UserRec where
  username : String
  hashedPassword : String
deriving DecidableEq, Repr

/-- Modelled from the spec: `authenticate_user` is defined in `auth.py`,
which is not under src/.  The spec says it "looks up user by exact username
match; fails if absent or password mismatch".  Password verification
(`verify_password`) is the `verify` parameter. -/
def authenticateUser (users : List UserRec) (verify : String → String → Bool)
    (username password : String) : Option UserRec :=
  match users.find? (fun u => u.username == username) with
  | none => none
  | some u => if verify password u.hashedPassword then some u else none

/-- Result of POST /api/auth/login. -/
inductive LoginResult where
  | token (accessToken : String) (tokenType : String)
  | unauthorized (statusCode : Nat) (detail : String)
deriving DecidableEq, Repr

/-- POST /api/auth/login (lines 169-184); `issue` models
`create_access_token` applied to the subject username. -/
def login (users : List UserRec) (verify : String → String → Bool)
    (issue : String → String) (username password : String) : LoginResult :=
  match authenticateUser users verify username password with
  | none => .unauthorized 401 "Incorrect username or password"
  | some u => .token (issue u.username) "bearer"

/-- Result of POST /api/auth/change-password. -/
inductive ChangeResult where
  | ok (message : String)
  | err (statusCode : Nat) (detail : String)
deriving DecidableEq, Repr

/-- POST /api/auth/change-password (lines 193-211): the HTTP result paired
with the stored hash after the request.  `verify` and `hashOf` model
`verify_password` and `get_password_hash` from the absent `auth.py`. -/
def changePassword (verify : String → String → Bool) (hashOf : String → String)
    (storedHash : String) (currentPassword newPassword : String) :
    ChangeResult × String :=
  if !(verify currentPassword storedHash) then
    (.err 400 "Current password is incorrect", storedHash)
  else
    (.ok "Password changed successfully", hashOf newPassword)

/-- Backend-independent underlying data of one secret. -/
structure SecretData where
  id : String
  name : String
  driver : String
  createdAt : String
  updatedAt : String
deriving DecidableEq, Repr

/-- Nested Spec object both backends report for the same underlying
secret. -/
def specOf (d : SecretData) : RemoteSpec :=
  RemoteSpec.mk (some d.name) (some (RemoteDriver.mk (some d.driver)))

/-- Raw remote-API record representing `d` (nested schema). -/
def remoteRawOf (d : SecretData) : RemoteSecret :=
  RemoteSecret.mk (some d.id) (some (specOf d)) (some d.createdAt) (some d.updatedAt)

/-- Canonical flat record for `d` — also the raw local-CLI list row. -/
def canonicalOf (d : SecretData) : SecretResponse :=
  SecretResponse.mk d.id d.name d.driver d.createdAt d.updatedAt

/-- Canonical detail object for `d` — also the raw local-CLI inspect row. -/
def canonicalDetailOf (d : SecretData) : SecretDetail :=
  SecretDetail.mk d.id d.name d.driver d.createdAt d.updatedAt (specOf d)

/-- A configuration that selects the remote-API backend. -/
def remoteCfg : Config := Config.mk "tcp://localhost:8080" "my-tcp"

/-- A configuration that selects the local-exec backend. -/
def localCfg : Config := Config.mk "" "my-tcp"

/-- A secret entry whose name strips to a copy of `SecretCreate.name`. -/
def stripEntry (s : SecretCreate) : SecretCreate :=
  SecretCreate.mk (pythonStrip s.name) s.data s.driver

/-- The 253-character name used to witness the upper length bound. -/
def name253 : String := String.mk (List.replicate 253 'a')

/-- Helper: `dropWhile` is idempotent. -/
theorem dropWhile_idem (p : Char → Bool) (l : List Char) :
    (l.dropWhile p).dropWhile p = l.dropWhile p := by
  induction l with
  | nil => rfl
  | cons a t ih =>
    rw [List.dropWhile_cons]
    by_cases h : p a
    · simpa [h] using ih
    · simp [List.dropWhile_cons, h]

/-- Helper: `dropWhile` never lengthens a list. -/
theorem dropWhile_len_le (p : Char → Bool) (l : List Char) :
    (l.dropWhile p).length ≤ l.length := by
  induction l with
  | nil => simp
  | cons a t ih =>
    rw [List.dropWhile_cons]
    by_cases h : p a
    · simp only [h, if_true]
      exact le_trans ih (Nat.le_succ _)
    · simp [h]

/-- Helper: right-stripping is idempotent. -/
theorem rstripL_idem (l : List Char) : rstripL (rstripL l) = rstripL l := by
  unfold rstripL
  rw [List.reverse_reverse, dropWhile_idem]

/-- Helper: a list with no leading whitespace keeps that property after
right-stripping. -/
theorem lstripL_rstripL (l : List Char) (h : lstripL l = l) :
    lstripL (rstripL l) = rstripL l := by
  cases l with
  | nil => simp [lstripL, rstripL]
  | cons a t =>
    have ha : isPySpace a = false := by
      by_cases hcon : isPySpace a
      · exfalso
        unfold lstripL at h
        rw [List.dropWhile_cons] at h
        simp only [hcon, if_true] at h
        have h3 := dropWhile_len_le isPySpace t
        rw [h] at h3
        simp at h3
      · simpa using hcon
    unfold rstripL
    rw [List.reverse_cons, List.dropWhile_append]
    cases hw : (t.reverse.dropWhile isPySpace).isEmpty with
    | true =>
      simp only [hw, if_true]
      simp [lstripL, List.dropWhile_cons, ha]
    | false =>
      simp only [hw, Bool.false_eq_true, if_false]
      rw [List.reverse_append]
      simp [lstripL, List.dropWhile_cons, ha]

/-- Helper: Python strip is idempotent. -/
theorem pythonStrip_idem (s : String) : pythonStrip (pythonStrip s) = pythonStrip s := by
  unfold pythonStrip
  congr 1
  show rstripL (lstripL (rstripL (lstripL s.data))) = rstripL (lstripL s.data)
  have h0 : lstripL (lstripL s.data) = lstripL s.data := dropWhile_idem isPySpace s.data
  rw [lstripL_rstripL _ h0, rstripL_idem]

/-- Helper: a whitespace-only string strips to the empty string. -/
theorem pythonStrip_of_all_space (s : String) (h : s.data.all isPySpace = true) :
    pythonStrip s = "" := by
  unfold pythonStrip lstripL
  have h2 : s.data.dropWhile isPySpace = [] := by
    rw [List.dropWhile_eq_nil_iff]
    intro x hx
    exact List.all_eq_true.mp h x hx
  rw [h2]
  decide

/-- C1 (counterexample): the single-space name " " is nonempty, within the
length bound and free of forbidden characters, so the claim says it is
accepted and dispatched; `create_secret` nevertheless rejects it with a 400
— validation is applied to the whitespace-stripped name, not the raw one. -/
theorem c1_counterexample :
    createSecret localCfg (SecretCreate.mk " " "x" "file")
        (fun _ => HttpOutcome.ok (some "sid")) (fun _ => PopenOutcome.run 0 "sid" "")
      = Except.error (HTTPError.mk 400 "Secret name must be between 1 and 253 characters")
    ∧ " " ≠ "" ∧ (" ").data.length ≤ 253 ∧ nameCharBad " " = false := by
  refine ⟨by decide, by decide, by decide, by decide⟩

/-- C1 (amended): a create-secret request is rejected with a 400 failure,
independently of (hence before) any backend call, if and only if the
whitespace-stripped secret name is empty, longer than 253 characters, or
contains `=`, `/`, `,` or NUL; otherwise the request is dispatched to the
selected backend carrying the stripped name. -/
theorem c1_create_validation (cfg : Config) (secret : SecretCreate)
    (httpB : String → HttpOutcome (Option String)) (cliB : String → PopenOutcome) :
    (badName (pythonStrip secret.name) = true →
      createSecret cfg secret httpB cliB =
        Except.error (HTTPError.mk 400
          (if nameLenBad (pythonStrip secret.name) then
            "Secret name must be between 1 and 253 characters"
          else
            "Secret name cannot contain \x27=\x27, \x27/\x27, \x27,\x27 or NULL characters"))) ∧
    (badName (pythonStrip secret.name) = false →
      createSecret cfg secret httpB cliB =
        dispatchCreate cfg (pythonStrip secret.name)
          (httpB (pythonStrip secret.name)) (cliB (pythonStrip secret.name))) := by
  constructor
  · intro h
    unfold createSecret
    unfold badName at h
    by_cases h1 : nameLenBad (pythonStrip secret.name) <;> simp_all
  · intro h
    unfold createSecret
    unfold badName at h
    simp only [Bool.or_eq_false_iff] at h
    simp [h.1, h.2]

/-- C1 (witness): the forbidden name "a=b" is rejected with the
forbidden-character 400; the 253-letter name is accepted and dispatched. -/
theorem c1_create_validation_witness :
    (badName (pythonStrip "a=b") = true ∧
      createSecret localCfg (SecretCreate.mk "a=b" "x" "file")
          (fun _ => HttpOutcome.ok (some "i")) (fun _ => PopenOutcome.run 0 "i" "")
        = Except.error (HTTPError.mk 400
            (if nameLenBad (pythonStrip "a=b") then
              "Secret name must be between 1 and 253 characters"
            else
              "Secret name cannot contain \x27=\x27, \x27/\x27, \x27,\x27 or NULL characters"))) ∧
    (badName (pythonStrip name253) = false ∧
      createSecret localCfg (SecretCreate.mk name253 "x" "file")
          (fun _ => HttpOutcome.ok (some "i")) (fun _ => PopenOutcome.run 0 "i" "")
        = dispatchCreate localCfg (pythonStrip name253)
            ((fun _ => HttpOutcome.ok (some "i")) (pythonStrip name253))
            ((fun _ => PopenOutcome.run 0 "i" "") (pythonStrip name253))) :=
  ⟨⟨by decide,
    (c1_create_validation localCfg (SecretCreate.mk "a=b" "x" "file")
      (fun _ => HttpOutcome.ok (some "i")) (fun _ => PopenOutcome.run 0 "i" "")).1 (by decide)⟩,
   ⟨by decide,
    (c1_create_validation localCfg (SecretCreate.mk name253 "x" "file")
      (fun _ => HttpOutcome.ok (some "i")) (fun _ => PopenOutcome.run 0 "i" "")).2 (by decide)⟩⟩

/-- C9: the secret name is stripped of surrounding whitespace before
validation and dispatch: replacing the name by its stripped form leaves the
result unchanged, the backend outcome is consulted only at the stripped
name (single and bulk create), and a whitespace-only name is rejected as
empty — in bulk too. -/
theorem c9_name_stripping (cfg : Config) (secret : SecretCreate)
    (httpB : String → HttpOutcome (Option String)) (cliB : String → PopenOutcome) :
    createSecret cfg secret httpB cliB = createSecret cfg (stripEntry secret) httpB cliB ∧
    createSecret cfg secret httpB cliB =
      createSecret cfg secret (fun _ => httpB (pythonStrip secret.name))
        (fun _ => cliB (pythonStrip secret.name)) ∧
    (secret.name.data.all isPySpace = true →
      createSecret cfg secret httpB cliB =
        Except.error (HTTPError.mk 400 "Secret name must be between 1 and 253 characters")) ∧
    (∀ (secrets : List SecretCreate)
        (hB hB2 : Nat → String → HttpOutcome (Option String))
        (cB cB2 : Nat → String → PopenOutcome),
      (∀ i n, hB i (pythonStrip n) = hB2 i (pythonStrip n)) →
      (∀ i n, cB i (pythonStrip n) = cB2 i (pythonStrip n)) →
      createBulkSecrets cfg secrets hB cB = createBulkSecrets cfg secrets hB2 cB2) ∧
    (∀ (s : SecretCreate) hOut cOut, s.name.data.all isPySpace = true →
      bulkProcessEntry cfg s hOut cOut =
        BulkItem.failed s.name "Name must be 1-253 characters") := by
  refine ⟨?_, rfl, ?_, ?_, ?_⟩
  · unfold createSecret stripEntry
    simp [pythonStrip_idem]
  · intro h
    unfold createSecret
    rw [pythonStrip_of_all_space _ h]
    simp [nameLenBad]
  · intro secrets hB hB2 cB cB2 hh hc
    induction secrets generalizing hB hB2 cB cB2 with
    | nil => rfl
    | cons s rest ih =>
      unfold createBulkSecrets
      rw [hh 0 s.name, hc 0 s.name,
        ih (fun i => hB (i + 1)) (fun i => hB2 (i + 1)) (fun i => cB (i + 1))
          (fun i => cB2 (i + 1)) (fun i n => hh (i + 1) n) (fun i n => hc (i + 1) n)]
  · intro s hOut cOut h
    unfold bulkProcessEntry
    rw [pythonStrip_of_all_space _ h]
    simp [nameLenBad]

/-- C9 (witness): a padded name behaves as its stripped form, and a
whitespace-only name is rejected. -/
theorem c9_name_stripping_witness :
    createSecret localCfg (SecretCreate.mk "  hi " "x" "file")
        (fun _ => HttpOutcome.ok (some "i")) (fun _ => PopenOutcome.run 0 "i" "")
      = createSecret localCfg (stripEntry (SecretCreate.mk "  hi " "x" "file"))
        (fun _ => HttpOutcome.ok (some "i")) (fun _ => PopenOutcome.run 0 "i" "") ∧
    ("  ").data.all isPySpace = true ∧
    createSecret localCfg (SecretCreate.mk "  " "x" "file")
        (fun _ => HttpOutcome.ok (some "i")) (fun _ => PopenOutcome.run 0 "i" "")
      = Except.error (HTTPError.mk 400 "Secret name must be between 1 and 253 characters") :=
  ⟨(c9_name_stripping localCfg (SecretCreate.mk "  hi " "x" "file")
      (fun _ => HttpOutcome.ok (some "i")) (fun _ => PopenOutcome.run 0 "i" "")).1,
   by decide,
   (c9_name_stripping localCfg (SecretCreate.mk "  " "x" "file")
      (fun _ => HttpOutcome.ok (some "i")) (fun _ => PopenOutcome.run 0 "i" "")).2.2.1 (by decide)⟩

/-- C10: bulk create partitions its input totally — the number of success
entries plus the number of failed entries equals the number of input
entries, whatever the validation result or backend outcome of each entry
(exceptions included). -/
theorem c10_bulk_partition (cfg : Config) (secrets : List SecretCreate)
    (hB : Nat → String → HttpOutcome (Option String))
    (cB : Nat → String → PopenOutcome) :
    (createBulkSecrets cfg secrets hB cB).success.length
      + (createBulkSecrets cfg secrets hB cB).failed.length = secrets.length := by
  induction secrets generalizing hB cB with
  | nil => rfl
  | cons s rest ih =>
    unfold createBulkSecrets
    have h := ih (fun i => hB (i + 1)) (fun i => cB (i + 1))
    cases bulkProcessEntry cfg s (hB 0 (pythonStrip s.name)) (cB 0 (pythonStrip s.name)) with
    | success id n => simp only [List.length_cons]; omega
    | failed n e => simp only [List.length_cons]; omega

/-- Helper: an invalid stripped name makes the bulk entry fail, carrying
the original name, regardless of the backend outcomes. -/
theorem entry_failed_of_bad (cfg : Config) (s : SecretCreate)
    (hOut : HttpOutcome (Option String)) (cOut : PopenOutcome)
    (hb : badName (pythonStrip s.name) = true) :
    bulkProcessEntry cfg s hOut cOut =
      BulkItem.failed s.name
        (if nameLenBad (pythonStrip s.name) then "Name must be 1-253 characters"
         else "Invalid characters in name") := by
  unfold bulkProcessEntry
  unfold badName at hb
  by_cases h1 : nameLenBad (pythonStrip s.name) <;> simp_all

/-- Helper: a valid stripped name whose selected backend call succeeds
makes the bulk entry a success carrying the stripped name. -/
theorem entry_success_of_ok (cfg : Config) (s : SecretCreate)
    (hOut : HttpOutcome (Option String)) (cOut : PopenOutcome)
    (hb : badName (pythonStrip s.name) = false)
    (hs : entrySucceeds cfg hOut cOut = true) :
    ∃ id, bulkProcessEntry cfg s hOut cOut = BulkItem.success id (pythonStrip s.name) := by
  unfold badName at hb
  simp only [Bool.or_eq_false_iff] at hb
  unfold bulkProcessEntry
  unfold entrySucceeds at hs
  simp only [hb.1, hb.2, Bool.false_eq_true, if_false]
  by_cases hm : useHttpApi cfg
  · simp only [hm, if_true] at hs ⊢
    cases hOut with
    | ok b => exact ⟨b.getD "", by simp [httpApiRequest]⟩
    | statusErr c t => simp at hs
    | connErr m => simp at hs
  · simp only [hm, Bool.false_eq_true, if_false] at hs ⊢
    cases cOut with
    | run rc out errS =>
      have hrc : rc = 0 := by simpa using hs
      exact ⟨pythonStrip out, by simp [hrc]⟩
    | exn m => simp at hs

/-- Helper: all-valid, all-succeeding inputs produce no failed entry and
one success per entry. -/
theorem bulk_all_ok (cfg : Config) (secrets : List SecretCreate)
    (hB : Nat → String → HttpOutcome (Option String))
    (cB : Nat → String → PopenOutcome)
    (hgood : ∀ j (hj : j < secrets.length),
      badName (pythonStrip (secrets.get ⟨j, hj⟩).name) = false)
    (hsucc : ∀ j (hj : j < secrets.length),
      entrySucceeds cfg (hB j (pythonStrip (secrets.get ⟨j, hj⟩).name))
        (cB j (pythonStrip (secrets.get ⟨j, hj⟩).name)) = true) :
    (createBulkSecrets cfg secrets hB cB).failed = [] ∧
    (createBulkSecrets cfg secrets hB cB).success.length = secrets.length := by
  induction secrets generalizing hB cB with
  | nil => exact ⟨rfl, rfl⟩
  | cons s rest ih =>
    obtain ⟨id, hitem⟩ := entry_success_of_ok cfg s _ _
      (hgood 0 (by simp)) (hsucc 0 (by simp))
    have hitem2 : bulkProcessEntry cfg s (hB 0 (pythonStrip s.name))
        (cB 0 (pythonStrip s.name)) = BulkItem.success id (pythonStrip s.name) := hitem
    have ihres := ih (fun i => hB (i + 1)) (fun i => cB (i + 1))
      (fun j hj => hgood (j + 1) (by simpa using Nat.succ_lt_succ hj))
      (fun j hj => hsucc (j + 1) (by simpa using Nat.succ_lt_succ hj))
    unfold createBulkSecrets
    rw [hitem2]
    exact ⟨ihres.1, by simp [ihres.2]⟩

/-- C2: in a bulk-create request where exactly the k-th entry fails name
validation and the backend call of every other entry succeeds, the result has
exactly one failure entry, carrying the original name of entry k, and N−1
success entries, whatever the position of k. -/
theorem c2_bulk_single_invalid (cfg : Config) (secrets : List SecretCreate)
    (hB : Nat → String → HttpOutcome (Option String))
    (cB : Nat → String → PopenOutcome) (k : Nat) (hk : k < secrets.length)
    (hbad : badName (pythonStrip (secrets.get ⟨k, hk⟩).name) = true)
    (hgood : ∀ j (hj : j < secrets.length), j ≠ k →
      badName (pythonStrip (secrets.get ⟨j, hj⟩).name) = false)
    (hsucc : ∀ j (hj : j < secrets.length), j ≠ k →
      entrySucceeds cfg (hB j (pythonStrip (secrets.get ⟨j, hj⟩).name))
        (cB j (pythonStrip (secrets.get ⟨j, hj⟩).name)) = true) :
    (createBulkSecrets cfg secrets hB cB).failed.map Prod.fst
        = [(secrets.get ⟨k, hk⟩).name] ∧
    (createBulkSecrets cfg secrets hB cB).success.length = secrets.length - 1 := by
  induction secrets generalizing hB cB k with
  | nil => exact absurd hk (by simp)
  | cons s rest ih =>
    cases k with
    | zero =>
      have hrest := bulk_all_ok cfg rest (fun i => hB (i + 1)) (fun i => cB (i + 1))
        (fun j hj => hgood (j + 1) (by simpa using Nat.succ_lt_succ hj) (by omega))
        (fun j hj => hsucc (j + 1) (by simpa using Nat.succ_lt_succ hj) (by omega))
      unfold createBulkSecrets
      rw [entry_failed_of_bad cfg s _ _ hbad]
      refine ⟨?_, ?_⟩
      · simp [hrest.1]
      · simp [hrest.2]
    | succ k2 =>
      have hk2 : k2 < rest.length := by simpa using hk
      obtain ⟨id, hitem⟩ := entry_success_of_ok cfg s _ _
        (hgood 0 (by simp) (by omega)) (hsucc 0 (by simp) (by omega))
      have hitem2 : bulkProcessEntry cfg s (hB 0 (pythonStrip s.name))
          (cB 0 (pythonStrip s.name)) = BulkItem.success id (pythonStrip s.name) := hitem
      have ihres := ih (fun i => hB (i + 1)) (fun i => cB (i + 1)) k2 hk2 (by simpa using hbad)
        (fun j hj hne => hgood (j + 1) (by simpa using Nat.succ_lt_succ hj) (by omega))
        (fun j hj hne => hsucc (j + 1) (by simpa using Nat.succ_lt_succ hj) (by omega))
      unfold createBulkSecrets
      rw [hitem2]
      refine ⟨by simpa using ihres.1, ?_⟩
      simp only [List.length_cons]
      rw [ihres.2]
      omega

/-- C2 (witness): three entries with the middle one invalid yield one
failure, carrying its name, and two successes. -/
theorem c2_bulk_single_invalid_witness :
    (createBulkSecrets localCfg
        [SecretCreate.mk "x" "d1" "file", SecretCreate.mk "a=b" "d2" "file",
         SecretCreate.mk "y" "d3" "file"]
        (fun _ _ => HttpOutcome.ok (some "i"))
        (fun _ _ => PopenOutcome.run 0 "i" "")).failed.map Prod.fst
      = [([SecretCreate.mk "x" "d1" "file", SecretCreate.mk "a=b" "d2" "file",
           SecretCreate.mk "y" "d3" "file"].get ⟨1, by decide⟩).name] ∧
    (createBulkSecrets localCfg
        [SecretCreate.mk "x" "d1" "file", SecretCreate.mk "a=b" "d2" "file",
         SecretCreate.mk "y" "d3" "file"]
        (fun _ _ => HttpOutcome.ok (some "i"))
        (fun _ _ => PopenOutcome.run 0 "i" "")).success.length
      = [SecretCreate.mk "x" "d1" "file", SecretCreate.mk "a=b" "d2" "file",
         SecretCreate.mk "y" "d3" "file"].length - 1 :=
  c2_bulk_single_invalid localCfg
    [SecretCreate.mk "x" "d1" "file", SecretCreate.mk "a=b" "d2" "file",
     SecretCreate.mk "y" "d3" "file"]
    (fun _ _ => HttpOutcome.ok (some "i")) (fun _ _ => PopenOutcome.run 0 "i" "")
    1 (by decide) (by decide) (by decide) (by decide)

/-- Helper: flattening the remote list row recovers the canonical flat
record. -/
theorem transformListEntry_remoteRawOf (d : SecretData) :
    transformListEntry (remoteRawOf d) = canonicalOf d := rfl

/-- Helper: flattening the remote inspect record recovers the canonical
detail object. -/
theorem transformInspect_remoteRawOf (d : SecretData) :
    transformInspect (remoteRawOf d) = canonicalDetailOf d := rfl

/-- C3: given equivalent underlying data, the remote-API backend (whose raw
records nest Name and Driver.Name inside Spec) and the local-exec backend
(whose raw records are already flat) produce the identical canonical list
and inspect responses, field for field. -/
theorem c3_backend_normalization (cfgR cfgL : Config) (ds : List SecretData)
    (d : SecretData) (secretId : String)
    (cliB : CliOutcome (List SecretResponse)) (httpB : HttpOutcome (List RemoteSecret))
    (cliB2 : CliOutcome (List SecretDetail)) (httpB2 : HttpOutcome (Option RemoteSecret))
    (hR : useHttpApi cfgR = true) (hL : useHttpApi cfgL = false) :
    listSecrets cfgR (HttpOutcome.ok (ds.map remoteRawOf)) cliB
        = Except.ok (ds.map canonicalOf) ∧
    listSecrets cfgL httpB (CliOutcome.ok (ds.map canonicalOf))
        = Except.ok (ds.map canonicalOf) ∧
    inspectSecret cfgR secretId (HttpOutcome.ok (some (remoteRawOf d))) cliB2
        = Except.ok (canonicalDetailOf d) ∧
    inspectSecret cfgL secretId httpB2 (CliOutcome.ok [canonicalDetailOf d])
        = Except.ok (canonicalDetailOf d) := by
  refine ⟨?_, ?_, ?_, ?_⟩
  · simp only [listSecrets, hR, if_true, httpApiRequest]
    cases ds with
    | nil => simp
    | cons d0 t =>
      simp [List.map_map, Function.comp, transformListEntry_remoteRawOf]
  · simp only [listSecrets, hL, Bool.false_eq_true, if_false, runPodmanCommand]
    cases ds with
    | nil => simp
    | cons d0 t => simp
  · simp [inspectSecret, hR, httpApiRequest, transformInspect_remoteRawOf]
  · simp [inspectSecret, hL, runPodmanCommand]

/-- C3 (witness): one concrete secret, both backends, both operations. -/
theorem c3_backend_normalization_witness :
    listSecrets remoteCfg
        (HttpOutcome.ok ([SecretData.mk "id1" "n1" "file" "c1" "u1"].map remoteRawOf))
        (CliOutcome.ok [])
      = Except.ok ([SecretData.mk "id1" "n1" "file" "c1" "u1"].map canonicalOf) ∧
    listSecrets localCfg (HttpOutcome.ok [])
        (CliOutcome.ok ([SecretData.mk "id1" "n1" "file" "c1" "u1"].map canonicalOf))
      = Except.ok ([SecretData.mk "id1" "n1" "file" "c1" "u1"].map canonicalOf) ∧
    inspectSecret remoteCfg "id1"
        (HttpOutcome.ok (some (remoteRawOf (SecretData.mk "id1" "n1" "file" "c1" "u1"))))
        (CliOutcome.ok [])
      = Except.ok (canonicalDetailOf (SecretData.mk "id1" "n1" "file" "c1" "u1")) ∧
    inspectSecret localCfg "id1" (HttpOutcome.ok none)
        (CliOutcome.ok [canonicalDetailOf (SecretData.mk "id1" "n1" "file" "c1" "u1")])
      = Except.ok (canonicalDetailOf (SecretData.mk "id1" "n1" "file" "c1" "u1")) :=
  c3_backend_normalization remoteCfg localCfg
    [SecretData.mk "id1" "n1" "file" "c1" "u1"] (SecretData.mk "id1" "n1" "file" "c1" "u1")
    "id1" (CliOutcome.ok []) (HttpOutcome.ok []) (CliOutcome.ok []) (HttpOutcome.ok none)
    (by decide) (by decide)

/-- C4 (counterexample): when the backend probe fails, the health result is
only {podman_available, error} — it does not contain the host, connection
and mode fields the claim promises on every result. -/
theorem c4_counterexample :
    healthCheck localCfg (HttpOutcome.ok (HttpVersionInfo.mk (some "5.0")))
        (HealthCliOutcome.exn "connection refused")
      = [("podman_available", JVal.b false), ("error", JVal.s "connection refused")] ∧
    "host" ∉ (healthCheck localCfg (HttpOutcome.ok (HttpVersionInfo.mk (some "5.0")))
        (HealthCliOutcome.exn "connection refused")).map Prod.fst ∧
    "connection" ∉ (healthCheck localCfg (HttpOutcome.ok (HttpVersionInfo.mk (some "5.0")))
        (HealthCliOutcome.exn "connection refused")).map Prod.fst ∧
    "mode" ∉ (healthCheck localCfg (HttpOutcome.ok (HttpVersionInfo.mk (some "5.0")))
        (HealthCliOutcome.exn "connection refused")).map Prod.fst := by
  refine ⟨by decide, by decide, by decide, by decide⟩

/-- C4 (amended): the health check is a total function of the backend
outcome — it never raises — and the shape of its structured result is
determined by the outcome of the selected backend probe: exactly the fields
{podman_available, version, host, connection, mode} when the probe
succeeds, and exactly the fields {podman_available, error} when it fails. -/
theorem c4_health_structured (cfg : Config) (httpB : HttpOutcome HttpVersionInfo)
    (cliB : HealthCliOutcome) :
    (healthCheck cfg httpB cliB).map Prod.fst
        = if healthSucceeds cfg httpB cliB then
            ["podman_available", "version", "host", "connection", "mode"]
          else ["podman_available", "error"] := by
  unfold healthCheck healthSucceeds
  by_cases hm : useHttpApi cfg
  · simp only [hm, if_true]
    cases httpB <;> simp [httpApiRequest]
  · simp only [hm, Bool.false_eq_true, if_false]
    cases cliB <;> simp

/-- C5: change-password fails with 400 and leaves the stored hash unchanged
when the current password does not verify; otherwise it replaces the stored
hash with the hash of the new password and succeeds. -/
theorem c5_change_password (verify : String → String → Bool) (hashOf : String → String)
    (storedHash currentPassword newPassword : String) :
    (verify currentPassword storedHash = false →
      changePassword verify hashOf storedHash currentPassword newPassword
        = (ChangeResult.err 400 "Current password is incorrect", storedHash)) ∧
    (verify currentPassword storedHash = true →
      changePassword verify hashOf storedHash currentPassword newPassword
        = (ChangeResult.ok "Password changed successfully", hashOf newPassword)) := by
  constructor <;> intro h <;> simp [changePassword, h]

/-- C5 (witness): both branches at concrete values. -/
theorem c5_change_password_witness :
    ((fun c s => c == s) "bad" "old" = false ∧
      changePassword (fun c s => c == s) (fun p => p) "old" "bad" "new"
        = (ChangeResult.err 400 "Current password is incorrect", "old")) ∧
    ((fun c s => c == s) "old" "old" = true ∧
      changePassword (fun c s => c == s) (fun p => p) "old" "old" "new"
        = (ChangeResult.ok "Password changed successfully", "new")) :=
  ⟨⟨by decide, (c5_change_password (fun c s => c == s) (fun p => p) "old" "bad" "new").1 (by decide)⟩,
   ⟨by decide, (c5_change_password (fun c s => c == s) (fun p => p) "old" "old" "new").2 (by decide)⟩⟩

/-- C6: login with correct credentials returns a bearer token; an unknown
username and a wrong password both yield the very same 401 result — the
failure signal never distinguishes the two — and no token is issued. -/
theorem c6_login (users : List UserRec) (verify : String → String → Bool)
    (issue : String → String) (username password : String) :
    (∀ u, users.find? (fun v => v.username == username) = some u →
      verify password u.hashedPassword = true →
      login users verify issue username password
        = LoginResult.token (issue u.username) "bearer") ∧
    (users.find? (fun v => v.username == username) = none →
      login users verify issue username password
        = LoginResult.unauthorized 401 "Incorrect username or password") ∧
    (∀ u, users.find? (fun v => v.username == username) = some u →
      verify password u.hashedPassword = false →
      login users verify issue username password
        = LoginResult.unauthorized 401 "Incorrect username or password") := by
  refine ⟨?_, ?_, ?_⟩
  · intro u hfind hv
    unfold login authenticateUser
    rw [hfind]
    simp [hv]
  · intro hfind
    unfold login authenticateUser
    rw [hfind]
  · intro u hfind hv
    unfold login authenticateUser
    rw [hfind]
    simp [hv]

/-- C6 (witness): one stored user; success, unknown user and wrong
password at concrete values, the two failures being the same value. -/
theorem c6_login_witness :
    login [UserRec.mk "admin" "secret"] (fun p s => p == s) (fun u => u) "admin" "secret"
      = LoginResult.token "admin" "bearer" ∧
    login [UserRec.mk "admin" "secret"] (fun p s => p == s) (fun u => u) "nobody" "secret"
      = LoginResult.unauthorized 401 "Incorrect username or password" ∧
    login [UserRec.mk "admin" "secret"] (fun p s => p == s) (fun u => u) "admin" "wrong"
      = LoginResult.unauthorized 401 "Incorrect username or password" :=
  ⟨(c6_login [UserRec.mk "admin" "secret"] (fun p s => p == s) (fun u => u)
      "admin" "secret").1 (UserRec.mk "admin" "secret") (by decide) (by decide),
   (c6_login [UserRec.mk "admin" "secret"] (fun p s => p == s) (fun u => u)
      "nobody" "secret").2.1 (by decide),
   (c6_login [UserRec.mk "admin" "secret"] (fun p s => p == s) (fun u => u)
      "admin" "wrong").2.2 (UserRec.mk "admin" "secret") (by decide) (by decide)⟩

/-- C7: deleting against the local-exec backend maps a nonzero exit status
to a structured 400 carrying the captured error stream; the remote-API
backend propagates the upstream status (404 for a missing id) with the
upstream body preserved; connection failures and unexpected exceptions
become structured 500s — no outcome escapes as an unhandled exception. -/
theorem c7_delete_error_mapping (cfgR cfgL : Config) (secretId st body msg : String)
    (code : Nat) (hR : useHttpApi cfgR = true) (hL : useHttpApi cfgL = false) :
    (∀ httpB, deleteSecret cfgL secretId httpB (CliRunOutcome.calledProcessError st)
        = Except.error (HTTPError.mk 400 ("Failed to delete secret: " ++ st))) ∧
    (∀ cliB, deleteSecret cfgR secretId (HttpOutcome.statusErr code body) cliB
        = Except.error (HTTPError.mk code ("Podman API error: " ++ body))) ∧
    (∀ cliB, deleteSecret cfgR secretId (HttpOutcome.connErr msg) cliB
        = Except.error (HTTPError.mk 500 ("Failed to connect to Podman API: " ++ msg))) ∧
    (∀ httpB, deleteSecret cfgL secretId httpB (CliRunOutcome.exn msg)
        = Except.error (HTTPError.mk 500 msg)) := by
  refine ⟨?_, ?_, ?_, ?_⟩ <;> intro b <;> simp [deleteSecret, hR, hL, httpApiRequest]

/-- C7 (witness): concrete nonexistent-id failures on both backends. -/
theorem c7_delete_error_mapping_witness :
    deleteSecret localCfg "nosuch" (HttpOutcome.ok ())
        (CliRunOutcome.calledProcessError "no secret with name or id")
      = Except.error (HTTPError.mk 400
          ("Failed to delete secret: " ++ "no secret with name or id")) ∧
    deleteSecret remoteCfg "nosuch" (HttpOutcome.statusErr 404 "no such secret")
        (CliRunOutcome.ok "" "")
      = Except.error (HTTPError.mk 404 ("Podman API error: " ++ "no such secret")) ∧
    deleteSecret localCfg "nosuch" (HttpOutcome.ok ()) (CliRunOutcome.exn "boom")
      = Except.error (HTTPError.mk 500 "boom") :=
  ⟨(c7_delete_error_mapping remoteCfg localCfg "nosuch" "no secret with name or id"
      "no such secret" "boom" 404 (by decide) (by decide)).1 (HttpOutcome.ok ()),
   (c7_delete_error_mapping remoteCfg localCfg "nosuch" "no secret with name or id"
      "no such secret" "boom" 404 (by decide) (by decide)).2.1 (CliRunOutcome.ok "" ""),
   (c7_delete_error_mapping remoteCfg localCfg "nosuch" "no secret with name or id"
      "no such secret" "boom" 404 (by decide) (by decide)).2.2.2 (HttpOutcome.ok ())⟩

/-- C8: the remote-API backend is selected exactly when the configured host
is nonempty and carries the `tcp://` scheme; with the remote backend
selected no operation consults the local-exec outcome, and with the local
backend selected none consults the remote outcome — every operation uses
the one backend the configuration selects. -/
theorem c8_backend_selection (cfg : Config) :
    (useHttpApi cfg = true ↔
      cfg.podmanHost ≠ "" ∧ "tcp://".data <+: cfg.podmanHost.data) ∧
    (useHttpApi cfg = true →
      (∀ s hB cB cB2, createSecret cfg s hB cB = createSecret cfg s hB cB2) ∧
      (∀ secrets hB cB cB2,
        createBulkSecrets cfg secrets hB cB = createBulkSecrets cfg secrets hB cB2) ∧
      (∀ hB cB cB2, listSecrets cfg hB cB = listSecrets cfg hB cB2) ∧
      (∀ sid hB cB cB2, inspectSecret cfg sid hB cB = inspectSecret cfg sid hB cB2) ∧
      (∀ sid hB cB cB2, deleteSecret cfg sid hB cB = deleteSecret cfg sid hB cB2) ∧
      (∀ hB cB cB2, healthCheck cfg hB cB = healthCheck cfg hB cB2)) ∧
    (useHttpApi cfg = false →
      (∀ s hB hB2 cB, createSecret cfg s hB cB = createSecret cfg s hB2 cB) ∧
      (∀ secrets hB hB2 cB,
        createBulkSecrets cfg secrets hB cB = createBulkSecrets cfg secrets hB2 cB) ∧
      (∀ hB hB2 cB, listSecrets cfg hB cB = listSecrets cfg hB2 cB) ∧
      (∀ sid hB hB2 cB, inspectSecret cfg sid hB cB = inspectSecret cfg sid hB2 cB) ∧
      (∀ sid hB hB2 cB, deleteSecret cfg sid hB cB = deleteSecret cfg sid hB2 cB) ∧
      (∀ hB hB2 cB, healthCheck cfg hB cB = healthCheck cfg hB2 cB)) := by
  refine ⟨?_, ?_, ?_⟩
  · simp [useHttpApi, Bool.and_eq_true, bne_iff_ne, List.isPrefixOf_iff_prefix]
  · intro hm
    have hentry : ∀ s hOut cOut cOut2,
        bulkProcessEntry cfg s hOut cOut = bulkProcessEntry cfg s hOut cOut2 := by
      intro s hOut cOut cOut2
      simp [bulkProcessEntry, hm]
    refine ⟨?_, ?_, ?_, ?_, ?_, ?_⟩
    · intro s hB cB cB2
      simp [createSecret, dispatchCreate, hm]
    · intro secrets hB cB cB2
      induction secrets generalizing hB cB cB2 with
      | nil => rfl
      | cons s rest ih =>
        unfold createBulkSecrets
        rw [hentry s _ (cB 0 (pythonStrip s.name)) (cB2 0 (pythonStrip s.name)),
          ih (fun i => hB (i + 1)) (fun i => cB (i + 1)) (fun i => cB2 (i + 1))]
    · intro hB cB cB2
      simp [listSecrets, hm]
    · intro sid hB cB cB2
      simp [inspectSecret, hm]
    · intro sid hB cB cB2
      simp [deleteSecret, hm]
    · intro hB cB cB2
      simp [healthCheck, hm]
  · intro hm
    have hentry : ∀ s hOut hOut2 cOut,
        bulkProcessEntry cfg s hOut cOut = bulkProcessEntry cfg s hOut2 cOut := by
      intro s hOut hOut2 cOut
      simp [bulkProcessEntry, hm]
    refine ⟨?_, ?_, ?_, ?_, ?_, ?_⟩
    · intro s hB hB2 cB
      simp [createSecret, dispatchCreate, hm]
    · intro secrets hB hB2 cB
      induction secrets generalizing hB hB2 cB with
      | nil => rfl
      | cons s rest ih =>
        unfold createBulkSecrets
        rw [hentry s (hB 0 (pythonStrip s.name)) (hB2 0 (pythonStrip s.name)) _,
          ih (fun i => hB (i + 1)) (fun i => hB2 (i + 1)) (fun i => cB (i + 1))]
    · intro hB hB2 cB
      simp [listSecrets, hm]
    · intro sid hB hB2 cB
      simp [inspectSecret, hm]
    · intro sid hB hB2 cB
      simp [deleteSecret, hm]
    · intro hB hB2 cB
      simp [healthCheck, hm]

/-- C8 (witness): the selection criterion at the two concrete
configurations, and one operation per mode ignoring the other backend. -/
theorem c8_backend_selection_witness :
    (useHttpApi remoteCfg = true ↔
      remoteCfg.podmanHost ≠ "" ∧ "tcp://".data <+: remoteCfg.podmanHost.data) ∧
    useHttpApi localCfg = false ∧
    listSecrets remoteCfg (HttpOutcome.ok []) (CliOutcome.ok [])
      = listSecrets remoteCfg (HttpOutcome.ok []) CliOutcome.jsonDecodeError ∧
    listSecrets localCfg (HttpOutcome.ok []) (CliOutcome.ok [])
      = listSecrets localCfg (HttpOutcome.connErr "down") (CliOutcome.ok []) :=
  ⟨(c8_backend_selection remoteCfg).1, by decide,
   ((c8_backend_selection remoteCfg).2.1 (by decide)).2.2.1
     (HttpOutcome.ok []) (CliOutcome.ok []) CliOutcome.jsonDecodeError,
   ((c8_backend_selection localCfg).2.2 (by decide)).2.2.1
     (HttpOutcome.ok []) (HttpOutcome.connErr "down") (CliOutcome.ok [])⟩

end PodSec
